import Mathlib

/-!
Shallow embedding of the Corporate Vacation Agent core
(src/database_tool.py, src/policy_rag.py, src/vacation_agent.py).

Modelling conventions:
* Python floats are modelled as rationals (`ℚ`); the literal `0.6` is the
  rational `3/5` and `round(x, 2)` is modelled by `round2` below
  (round-half-to-even on hundredths, as Python's `round` behaves).
* Dates are modelled as `ℤ`, a linear day index with `1 = 2024-01-01`
  (a Monday, so `weekday d = (d - 1) % 7` matches `date.weekday()`).
  Date comparison, `timedelta(days = n)` and `(a - b).days` become the
  corresponding integer operations; `date2024 m d` builds the index of a
  2024 calendar date (2024 is a leap year).
* The database is embedded as the schema that `_ensure_db_exists` creates
  on a fresh install (the "new schema"): the `employees` table has columns
  `vacation_days`, `remaining_hours`, `annual_quota`, `vacation_used_hours`,
  `sick_used_hours`, `sick_accrued_hours`, `years_of_service`,
  `sick_annual_quota_days`; there is NO `remaining_sick_hours` column, so
  the corresponding conditional update in `_update_employee_balance` does
  not fire.  Display-only columns (email, department, position, start_date,
  manager_id, vacation_annual_quota_days, vacation_accrued_hours) are not
  read by any embedded operation and are omitted from the record.
* Human-readable option/violation strings are not reproduced character by
  character: each distinct format-string template used by the code becomes
  one constructor of the `Desc` inductive type, carrying the numeric or
  date parameters interpolated into the template.  Two rendered Python
  descriptions are equal (case-insensitively) exactly when the template
  and its parameters agree, so deduplication by lowercased description in
  `_generate_approval_response` becomes deduplication by `Desc` equality.
-/

abbrev Date := Int

/-- Day index of a 2024 calendar date; `date2024 1 1 = 1` is 2024-01-01. -/
def date2024 (m d : Nat) : Date :=
  (match m with
   | 1 => 0 | 2 => 31 | 3 => 60 | 4 => 91 | 5 => 121 | 6 => 152
   | 7 => 182 | 8 => 213 | 9 => 244 | 10 => 274 | 11 => 305 | _ => 335) + d

/-- Python's `date.weekday()`: 0 = Monday. Day index 1 (2024-01-01) is a Monday. -/
def weekday (d : Date) : Int := (d - 1) % 7

/-- Round-half-to-even to an integer, as Python's builtin `round` does. -/
def bankersRound (x : ℚ) : ℤ :=
  if x - Int.floor x < 1/2 then Int.floor x
  else if 1/2 < x - Int.floor x then Int.floor x + 1
  else if Int.floor x % 2 = 0 then Int.floor x else Int.floor x + 1

/-- Python's `round(x, 2)`. -/
def round2 (x : ℚ) : ℚ := (bankersRound (x * 100) : ℚ) / 100

/-- Python's `str.lower()` (all strings compared after lowering are ASCII). -/
def pyLower (s : String) : String := ⟨s.data.map Char.toLower⟩

/-- Python's `str.startswith(p)`. -/
def pyStartsWith (s p : String) : Bool := p.data.isPrefixOf s.data

/-- One row of the `employees` table (fresh-install schema, see header note). -/
structure Employee where
  employee_id : String
  name : String
  vacation_days : ℚ
  remaining_hours : ℚ
  annual_quota : Option ℤ
  vacation_used_hours : ℚ
  sick_used_hours : ℚ
  sick_accrued_hours : ℚ
  years_of_service : Option ℤ
  sick_annual_quota_days : Option ℤ
deriving DecidableEq

/-- One row of the `leave_requests` table.  `request_id` / `request_date` are
never read by the embedded operations (the ORDER BY in `get_long_vacations`
only permutes a list whose sole consumer is a length count) and are omitted. -/
structure LeaveRequest where
  employee_id : String
  leave_type : String
  start_date : Date
  end_date : Date
  days_requested : ℚ
  hours_requested : ℚ
  status : String
deriving DecidableEq

/-- The SQLite database contents relevant to the core. -/
structure DBState where
  employees : List Employee
  leave_requests : List LeaveRequest
deriving DecidableEq

/-- `SELECT ... FROM employees WHERE employee_id = ?` (primary-key lookup). -/
def findEmployee (s : DBState) (id : String) : Option Employee :=
  s.employees.find? (fun e => e.employee_id = id)

/-- Python's `annual_quota or 20`: `None` and `0` are falsy and give 20. -/
def pyOrQuota : Option ℤ → ℤ
  | none => 20
  | some q => if q = 0 then 20 else q

/-- The balance dictionary returned by `get_remaining_balance`. -/
structure Balance where
  remaining_days : ℚ
  remaining_hours : ℚ
  accrued_hours : ℚ
  used_hours : ℚ
  annual_quota_days : ℤ
  annual_quota_hours : ℤ
deriving DecidableEq

/-- The not-found error dictionary of `get_remaining_balance` carries zeros for
`remaining_days`, `remaining_hours`, `annual_quota_days`; the remaining keys are
absent in Python and modelled as zeros (no embedded consumer reads them). -/
def errorBalance : Balance :=
  { remaining_days := 0, remaining_hours := 0, accrued_hours := 0,
    used_hours := 0, annual_quota_days := 0, annual_quota_hours := 0 }

/-- `EmployeeDatabase.get_remaining_balance` (new-schema branch; both
`sick_accrued_hours` and `sick_used_hours` columns exist). -/
def get_remaining_balance (s : DBState) (employee_id leave_type : String) :
    Option Balance :=
  (findEmployee s employee_id).map fun e =>
    if pyLower leave_type = "vacation" then
      let remaining_hours_val := max 0 e.remaining_hours
      let accrued := e.vacation_days * 8
      let used := e.vacation_used_hours
      let quota_days := pyOrQuota e.annual_quota
      let remaining_hours := round2 remaining_hours_val
      let max_hours := round2 ((quota_days : ℚ) * 8)
      let remaining_hours := min remaining_hours max_hours
      let remaining_days := round2 (remaining_hours / 8)
      { remaining_days := round2 remaining_days,
        remaining_hours := round2 remaining_hours,
        accrued_hours := round2 accrued,
        used_hours := round2 used,
        annual_quota_days := quota_days,
        annual_quota_hours := quota_days * 8 }
    else
      let remaining_hours_val := max 0 (e.sick_accrued_hours - e.sick_used_hours)
      let accrued := e.sick_accrued_hours
      let used := e.sick_used_hours
      let quota_days : ℤ := 8
      let remaining_hours := round2 remaining_hours_val
      let max_hours := round2 ((quota_days : ℚ) * 8)
      let remaining_hours := min remaining_hours max_hours
      let remaining_days := round2 (remaining_hours / 8)
      { remaining_days := round2 remaining_days,
        remaining_hours := round2 remaining_hours,
        accrued_hours := round2 accrued,
        used_hours := round2 used,
        annual_quota_days := quota_days,
        annual_quota_hours := quota_days * 8 }

/-- `EmployeeDatabase.check_balance_sufficient`.  The Python error dictionary
(flagging an unknown employee) is modelled as `none` in the second component. -/
def check_balance_sufficient (s : DBState) (employee_id : String)
    (days_requested : ℚ) (leave_type : String) : Bool × Option Balance :=
  match get_remaining_balance s employee_id leave_type with
  | none => (false, none)
  | some balance =>
      (decide (balance.remaining_hours ≥ days_requested * 8), some balance)

/-- The dictionary returned by `EmployeeDatabase.get_employee_info`. -/
structure EmployeeInfo where
  employee_id : String
  name : String
  years_of_service : ℤ
  vacation_annual_quota_days : ℤ
  sick_annual_quota_days : ℤ
deriving DecidableEq

/-- `EmployeeDatabase.get_employee_info` (new-schema branch: the fresh schema
has `annual_quota`, `years_of_service` and `sick_annual_quota_days`). -/
def get_employee_info (s : DBState) (employee_id : String) : Option EmployeeInfo :=
  (findEmployee s employee_id).map fun e =>
    { employee_id := e.employee_id,
      name := e.name,
      years_of_service := e.years_of_service.getD 0,
      vacation_annual_quota_days := pyOrQuota e.annual_quota,
      sick_annual_quota_days := e.sick_annual_quota_days.getD 8 }

/-- `EmployeeDatabase.get_long_vacations`: all approved vacation requests of
the employee with more than 7 days (its date arguments are unused by the
Python body; the ORDER BY is dropped, see `LeaveRequest`). -/
def get_long_vacations (s : DBState) (employee_id : String) : List LeaveRequest :=
  s.leave_requests.filter fun r =>
    r.employee_id = employee_id ∧ r.leave_type = "vacation" ∧
      r.days_requested > 7 ∧ r.status = "approved"

/-- `EmployeeDatabase._update_employee_balance` on the fresh-install schema:
`vacation_days` is clamped to `[0, COALESCE(annual_quota, 20)]`,
`remaining_hours` to `[0, COALESCE(annual_quota, 20) * 8]`, while
`vacation_used_hours` / `sick_used_hours` get an unclamped `+ hours_change`;
the `remaining_sick_hours` column does not exist, so its update is skipped. -/
def update_employee_balance (s : DBState) (employee_id leave_type : String)
    (days_change : ℚ) : DBState :=
  let hours_change := days_change * 8
  if hours_change = 0 then s
  else if pyLower leave_type = "vacation" then
    { s with employees := s.employees.map fun e =>
        if e.employee_id = employee_id then
          let q : ℚ := (e.annual_quota.getD 20 : ℤ)
          let vd := e.vacation_days - days_change
          let vd := if vd < 0 then 0 else if vd > q then q else vd
          let rh := e.remaining_hours - hours_change
          let rh := if rh < 0 then 0 else if rh > q * 8 then q * 8 else rh
          { e with vacation_days := vd, remaining_hours := rh,
                   vacation_used_hours := e.vacation_used_hours + hours_change }
        else e }
  else
    { s with employees := s.employees.map fun e =>
        if e.employee_id = employee_id then
          { e with sick_used_hours := e.sick_used_hours + hours_change }
        else e }

/-- `EmployeeDatabase.record_leave_request`: append to history, and reduce the
balance via `_update_employee_balance` when the status is `"approved"`. -/
def record_leave_request (s : DBState) (employee_id leave_type : String)
    (start_date end_date : Date) (days_requested : ℚ) (status : String) :
    DBState :=
  let hours_requested := days_requested * 8
  let s1 : DBState :=
    { s with leave_requests := s.leave_requests ++
        [{ employee_id := employee_id, leave_type := leave_type,
           start_date := start_date, end_date := end_date,
           days_requested := days_requested, hours_requested := hours_requested,
           status := status }] }
  if status = "approved" then
    update_employee_balance s1 employee_id leave_type days_requested
  else s1

/-- A ledger mutation (balance reads are pure and need no operation). -/
inductive LedgerOp where
  | record (employee_id leave_type : String) (start_date end_date : Date)
      (days_requested : ℚ) (status : String)
deriving DecidableEq

def applyOp (s : DBState) : LedgerOp → DBState
  | .record id lt sd ed days status => record_leave_request s id lt sd ed days status

def applyOps (s : DBState) (ops : List LedgerOp) : DBState := ops.foldl applyOp s

/-- The violation/warning dictionaries produced by the Rule Evaluator and the
agent checks.  Each constructor corresponds to one `rule` value together with
the rule-specific payload keys; only `noticePeriodWarning` carries the Python
key `type = "warning"` (see `Violation.isWarning`). -/
inductive Violation where
  | sixtyPercentRule (requested : ℤ) (maximum : ℚ)
  | noticePeriodBlocking (notice_provided required : ℤ)
  | noticePeriodWarning (notice_provided : ℤ)
  | blackout (name : String) (blackout_start blackout_end : Date)
  | frequency (existing_count limit : ℕ)
deriving DecidableEq

/-- Python's `v.get("type") == "warning"`: only the short-notice warning
dictionary carries that key. -/
def Violation.isWarning : Violation → Bool
  | .noticePeriodWarning _ => true
  | _ => false

/-- The `request_info` dictionary assembled by `process_vacation_request`. -/
structure RequestInfo where
  employee_id : String
  leave_type : String
  days_requested : ℤ
  start_date : Date
  end_date : Date
  annual_quota_days : ℤ
  notice_days : ℤ
deriving DecidableEq

/-- The result of `PolicyRAG.check_policy_compliance`
(`section_references` is derived display data and is omitted). -/
structure PolicyCheck where
  compliant : Bool
  violations : List Violation
  warnings : List Violation
deriving DecidableEq

/-- `PolicyRAG.check_policy_compliance`: the 60% rule (vacation only) and the
tiered notice rule.  `compliant` starts `true` and is set `false` exactly when
a blocking violation is appended. -/
def check_policy_compliance (r : RequestInfo) : PolicyCheck :=
  let leave_type := pyLower r.leave_type
  let days_requested := r.days_requested
  let annual_quota := r.annual_quota_days
  let notice_days := r.notice_days
  let quotaStep : List Violation × Bool :=
    if leave_type = "vacation" then
      let max_single_request : ℚ := (annual_quota : ℚ) * 0.6
      if (days_requested : ℚ) > max_single_request then
        ([.sixtyPercentRule days_requested max_single_request], false)
      else ([], true)
    else ([], true)
  let noticeStep : List Violation × Bool :=
    if days_requested > 3 then
      if notice_days < 14 then ([.noticePeriodBlocking notice_days 14], false)
      else ([], true)
    else ([], true)
  let warnings : List Violation :=
    if days_requested > 3 then []
    else if days_requested ≥ 1 then
      if notice_days < 5 then [.noticePeriodWarning notice_days] else []
    else []
  { compliant := quotaStep.2 && noticeStep.2,
    violations := quotaStep.1 ++ noticeStep.1,
    warnings := warnings }

/-- One entry of the hardcoded blackout list in `PolicyRAG.get_blackout_periods`. -/
structure BlackoutPeriod where
  name : String
  bstart : Date
  bend : Date
deriving DecidableEq

/-- `PolicyRAG.get_blackout_periods`: the hardcoded 2024 blackout calendar
(the similarity-search call does not influence the returned list). -/
def get_blackout_periods : List BlackoutPeriod :=
  [ { name := "Q1 End", bstart := date2024 3 18, bend := date2024 3 31 },
    { name := "Q2 End", bstart := date2024 6 17, bend := date2024 6 30 },
    { name := "Q3 End", bstart := date2024 9 16, bend := date2024 9 30 },
    { name := "Year-End", bstart := date2024 11 15, bend := date2024 12 31 } ]

/-- The `for blackout in blackout_periods` loop of
`VacationAgent._check_blackout_periods`. -/
def blackoutLoop (start_date end_date : Date) (days_requested : ℚ) :
    List BlackoutPeriod → Option Violation
  | [] => none
  | b :: rest =>
    if start_date ≤ b.bend ∧ end_date ≥ b.bstart then
      if days_requested < 3 then blackoutLoop start_date end_date days_requested rest
      else some (.blackout b.name b.bstart b.bend)
    else blackoutLoop start_date end_date days_requested rest

/-- `VacationAgent._check_blackout_periods`. -/
def check_blackout_periods (start_date end_date : Date) (days_requested : ℚ) :
    Option Violation :=
  blackoutLoop start_date end_date days_requested get_blackout_periods

/-- `VacationAgent._check_frequency_limits`. -/
def check_frequency_limits (s : DBState) (employee_id : String)
    (start_date end_date : Date) : Option Violation :=
  let long_vacations := get_long_vacations s employee_id
  let requested_range_start := start_date - 60
  let requested_range_end := end_date + 60
  let nearby_long_vacations := long_vacations.filter fun v =>
    v.start_date ≤ requested_range_end ∧ v.end_date ≥ requested_range_start
  if nearby_long_vacations.length ≥ 2 then
    some (.frequency nearby_long_vacations.length 2)
  else none

/-- Description templates of the remediation options (see the header note):
one constructor per Python format string, carrying its interpolated values. -/
inductive Desc where
  | reduceRequest (maximum : ℚ)
  | splitRequest (maximum remainder : ℚ)
  | shiftStart (days_needed required : ℤ)
  | managerOverrideEmergency
  | shiftAvoidBlackout
  | reduceUnder3
  | managerOverrideSpecial
  | delayUntilWindow
  | reduceTo7OrLess
  | approveAsRequested (days : ℚ) (start_date end_date : Date)
  | useAvailableBalance (remaining_days : ℚ)
  | delayAccrue (shortfall : ℚ)
  | denyReason
deriving DecidableEq

/-- `PolicyRAG.suggest_alternatives`, matching on the `rule` string of the
violation ("60% Rule" / "Notice Period" / "Blackout Period" /
"Frequency Limits" as substrings).  The notice warning's rule string also
contains "Notice Period"; its dictionary lacks the `required` key, so the
Python `.get("required", 14)` default of 14 applies there. -/
def suggest_alternatives : Violation → List Desc
  | .sixtyPercentRule requested maximum =>
      [.reduceRequest maximum, .splitRequest maximum ((requested : ℚ) - maximum)]
  | .noticePeriodBlocking provided required =>
      [.shiftStart (required - provided) required, .managerOverrideEmergency]
  | .noticePeriodWarning provided =>
      [.shiftStart (14 - provided) 14, .managerOverrideEmergency]
  | .blackout _ _ _ =>
      [.shiftAvoidBlackout, .reduceUnder3, .managerOverrideSpecial]
  | .frequency _ _ =>
      [.delayUntilWindow, .reduceTo7OrLess]

/-- Python's `"Shift" in opt_text or "Reduce" in opt_text` on the rendered
option text of each template. -/
def Desc.hasShiftOrReduce : Desc → Bool
  | .reduceRequest _ => true
  | .splitRequest _ _ => false
  | .shiftStart _ _ => true
  | .managerOverrideEmergency => false
  | .shiftAvoidBlackout => true
  | .reduceUnder3 => true
  | .managerOverrideSpecial => false
  | .delayUntilWindow => false
  | .reduceTo7OrLess => true
  | .approveAsRequested _ _ _ => false
  | .useAvailableBalance _ => false
  | .delayAccrue _ => false
  | .denyReason => false

/-- A structured remediation option (`letter`, `type`, description template,
`recommended`; the `title` and `consequence` strings are rendered from the
same data and are omitted). -/
structure RemOption where
  letter : Char
  otype : String
  desc : Desc
  recommended : Bool
deriving DecidableEq

def nextLetter (c : Char) : Char := Char.ofNat (c.toNat + 1)

/-- The option-assembly block of `_generate_approval_response` (denied branch),
threading the running `option_letter`. -/
def approval_options (sufficient : Bool) (blackout_violation frequency_violation : Option Violation)
    (violations : List Violation) (days_requested : ℤ) (start_date end_date : Date)
    (balance_info : Balance) : List RemOption :=
  let st0 : List RemOption × Char := ([], 'A')
  let st1 :=
    if sufficient && blackout_violation.isNone && frequency_violation.isNone then
      (st0.1 ++ [⟨st0.2, "approve",
        .approveAsRequested (days_requested : ℚ) start_date end_date, false⟩],
       nextLetter st0.2)
    else st0
  let st2 := violations.foldl
    (fun st v =>
      if v.isWarning then st
      else (suggest_alternatives v).foldl
        (fun st d => (st.1 ++ [⟨st.2, "modify", d, d.hasShiftOrReduce⟩], nextLetter st.2))
        st)
    st1
  let st3 :=
    if !sufficient then
      let shortfall := (days_requested : ℚ) - balance_info.remaining_days
      let stA := (st2.1 ++ [⟨st2.2, "reduce",
        .useAvailableBalance balance_info.remaining_days, true⟩], nextLetter st2.2)
      (stA.1 ++ [⟨stA.2, "delay", .delayAccrue shortfall, false⟩], nextLetter stA.2)
    else st2
  st3.1 ++ [⟨st3.2, "deny", .denyReason, false⟩]

/-- The duplicate-removal pass keyed on lowercased description text; under the
`Desc` abstraction that key is the `Desc` value itself. -/
def dedupGo : List RemOption → List Desc → List RemOption
  | [], _ => []
  | o :: rest, seen =>
      if o.desc ∈ seen then dedupGo rest seen
      else o :: dedupGo rest (seen ++ [o.desc])

def dedupOptions (opts : List RemOption) : List RemOption := dedupGo opts []

/-- One entry of the `analysis_checks` list: the check name and its
PASS/FAIL/WARNING/INFO status (icon and detail strings are derived text). -/
structure AnalysisCheck where
  check : String
  status : String
deriving DecidableEq

/-- `VacationAgent._generate_analysis_checks`.  `max_consecutive_days` is read
from the policy-check dictionary with default 10, and `check_policy_compliance`
never sets that key, so the limit is the constant 10.  The notice filter keeps
violations with `type = "warning"` whose rule contains "Notice"; the only such
dictionary is the notice warning, so it coincides with `Violation.isWarning`. -/
def generate_analysis_checks (balance_info : Balance) (sufficient : Bool)
    (days_requested : ℤ) (start_date end_date : Date) (violations : List Violation)
    (blackout_violation frequency_violation : Option Violation) : List AnalysisCheck :=
  let check1 : AnalysisCheck := ⟨"Balance Check", if sufficient then "PASS" else "FAIL"⟩
  let max_consecutive : ℤ := 10
  let check2 : AnalysisCheck :=
    if days_requested > max_consecutive then ⟨"Max Consecutive Days", "FAIL"⟩
    else ⟨"Max Consecutive Days", "PASS"⟩
  let check3 : AnalysisCheck :=
    if blackout_violation.isSome then ⟨"Blackout Period", "FAIL"⟩
    else ⟨"Blackout Period", "PASS"⟩
  let check4 : AnalysisCheck :=
    if frequency_violation.isSome then ⟨"Frequency Limits", "FAIL"⟩
    else ⟨"Frequency Limits", "PASS"⟩
  let notice_warnings := violations.filter fun v => v.isWarning
  let check5 : List AnalysisCheck :=
    if notice_warnings.isEmpty then [⟨"Notice Period", "PASS"⟩]
    else notice_warnings.map fun _ => ⟨"Notice Period", "WARNING"⟩
  let calendar_days := end_date - start_date + 1
  let includes_weekends :=
    weekday start_date ≥ 5 || weekday end_date ≥ 5 || calendar_days ≥ 7
  let check6 : List AnalysisCheck :=
    if includes_weekends then [⟨"Weekend Inclusion", "INFO"⟩] else []
  [check1, check2, check3, check4] ++ check5 ++ check6

/-- The decision dictionary returned to the caller (`message` and
`email_content` are rendered text and are omitted; `can_be_approved` is
`none` when the key is absent, i.e. on the manager fast-path and errors). -/
structure Decision where
  status : String
  employee_id : String
  employee_name : String
  leave_type : String
  req_start : Date
  req_end : Date
  req_days : ℤ
  balance_remaining_days : ℚ
  balance_remaining_hours : ℚ
  balance_annual_quota_days : ℤ
  violations : List Violation
  warnings : List Violation
  options : List RemOption
  analysis_checks : List AnalysisCheck
  can_be_approved : Option Bool
  is_manager_approval : Bool
deriving DecidableEq

/-- `VacationAgent._generate_approval_response`. -/
def generate_approval_response (employee_info : EmployeeInfo) (balance_info : Balance)
    (sufficient : Bool) (days_requested : ℤ) (start_date end_date : Date)
    (leave_type : String) (violations : List Violation) (approved : Bool)
    (analysis_checks : List AnalysisCheck)
    (blackout_violation frequency_violation : Option Violation) : Decision :=
  let warnings_only :=
    if approved then violations.filter (fun v => v.isWarning) else []
  let violations_to_show := if approved then warnings_only else violations
  { status := if approved then "approved" else "denied",
    employee_id := employee_info.employee_id,
    employee_name := employee_info.name,
    leave_type := leave_type,
    req_start := start_date, req_end := end_date, req_days := days_requested,
    balance_remaining_days := balance_info.remaining_days,
    balance_remaining_hours := balance_info.remaining_hours,
    balance_annual_quota_days := balance_info.annual_quota_days,
    violations := violations_to_show,
    warnings := warnings_only,
    options :=
      if approved then []
      else dedupOptions (approval_options sufficient blackout_violation
        frequency_violation violations days_requested start_date end_date balance_info),
    analysis_checks := analysis_checks,
    can_be_approved := none,
    is_manager_approval := false }

/-- The non-manager body of `process_vacation_request` after the employee
lookup: balance check, policy check, blackout check, gated frequency check,
aggregation, and the final override of `status` to `"pending"`. -/
def build_decision (s : DBState) (employee_info : EmployeeInfo)
    (employee_id leave_type : String) (start_date end_date request_date : Date) :
    Decision :=
  let days_requested : ℤ := end_date - start_date + 1
  let notice_days : ℤ := start_date - request_date
  let annual_quota : ℤ :=
    if leave_type = "vacation" then employee_info.vacation_annual_quota_days
    else employee_info.sick_annual_quota_days
  let sb := check_balance_sufficient s employee_id (days_requested : ℚ) leave_type
  let sufficient := sb.1
  let balance_info := sb.2.getD errorBalance
  let request_info : RequestInfo :=
    { employee_id := employee_id, leave_type := leave_type,
      days_requested := days_requested, start_date := start_date,
      end_date := end_date, annual_quota_days := annual_quota,
      notice_days := notice_days }
  let policy_check := check_policy_compliance request_info
  let blackout_violation := check_blackout_periods start_date end_date (days_requested : ℚ)
  let frequency_violation :=
    if leave_type = "vacation" && decide (days_requested > 7) then
      check_frequency_limits s employee_id start_date end_date
    else none
  let all_violations := policy_check.violations ++ policy_check.warnings ++
    blackout_violation.toList ++ frequency_violation.toList
  let can_be_approved := sufficient && policy_check.compliant &&
    blackout_violation.isNone && frequency_violation.isNone
  let analysis_checks := generate_analysis_checks balance_info sufficient
    days_requested start_date end_date all_violations blackout_violation
    frequency_violation
  let d := generate_approval_response employee_info balance_info sufficient
    days_requested start_date end_date leave_type all_violations can_be_approved
    analysis_checks blackout_violation frequency_violation
  { d with status := "pending", can_be_approved := some can_be_approved }

/-- The manager fast-path response of `process_vacation_request` (empty
violations/warnings/options, status `"approved"`, balance refetched after the
auto-commit). -/
def manager_decision (employee_info : EmployeeInfo) (leave_type : String)
    (start_date end_date : Date) (days_requested : ℤ) (balance_info : Balance) :
    Decision :=
  { status := "approved",
    employee_id := employee_info.employee_id,
    employee_name := employee_info.name,
    leave_type := leave_type,
    req_start := start_date, req_end := end_date, req_days := days_requested,
    balance_remaining_days := balance_info.remaining_days,
    balance_remaining_hours := balance_info.remaining_hours,
    balance_annual_quota_days := balance_info.annual_quota_days,
    violations := [], warnings := [], options := [], analysis_checks := [],
    can_be_approved := none,
    is_manager_approval := true }

/-- The result of `process_vacation_request`: the not-found error dictionary
(`status = "error"`, no options) or a decision. -/
inductive AgentResult where
  | notFound (employee_id : String)
  | decision (d : Decision)
deriving DecidableEq

/-- View of an `AgentResult` as the returned dictionary: the error dictionary
carries `status = "error"` and the employee id, all other keys absent. -/
def decisionOf : AgentResult → Decision
  | .decision d => d
  | .notFound id =>
      { status := "error", employee_id := id, employee_name := "",
        leave_type := "", req_start := 0, req_end := 0, req_days := 0,
        balance_remaining_days := 0, balance_remaining_hours := 0,
        balance_annual_quota_days := 0, violations := [], warnings := [],
        options := [], analysis_checks := [], can_be_approved := none,
        is_manager_approval := false }

def statusOf (r : AgentResult) : String := (decisionOf r).status

/-- `VacationAgent.process_vacation_request`, with the database state passed
explicitly (the returned state is the database after the call).  The manager
fast-path also computes a pre-commit `check_balance_sufficient` snapshot that
is immediately overwritten by the post-commit refetch; being pure and unused,
it is dropped. -/
def process_vacation_request (s : DBState) (employee_id leave_type : String)
    (start_date end_date : Date) (request_date : Date) (is_manager : Bool) :
    AgentResult × DBState :=
  let days_requested : ℤ := end_date - start_date + 1
  match get_employee_info s employee_id with
  | none => (.notFound employee_id, s)
  | some employee_info =>
    if is_manager || pyStartsWith employee_id "MGR" then
      let s1 := record_leave_request s employee_id leave_type start_date end_date
        (days_requested : ℚ) "approved"
      let balance_info := (get_remaining_balance s1 employee_id leave_type).getD errorBalance
      (.decision (manager_decision employee_info leave_type start_date end_date
        days_requested balance_info), s1)
    else
      (.decision (build_decision s employee_info employee_id leave_type
        start_date end_date request_date), s)

/-- A database holding the first row of `initialize_sample_data`
(new-schema branch: 14 vacation days, 112 remaining hours, quota 20;
column defaults fill the remaining fields). -/
def sampleDB : DBState :=
  { employees := [
      { employee_id := "EMP001", name := "John Smith", vacation_days := 14,
        remaining_hours := 112, annual_quota := some 20,
        vacation_used_hours := 0, sick_used_hours := 0, sick_accrued_hours := 64,
        years_of_service := some 0, sick_annual_quota_days := some 8 } ],
    leave_requests := [] }

/-- The employee row after `update_employee_balance sampleDB "EMP001" "vacation" 5`. -/
def sampleEmpAfter5 : Employee :=
  { employee_id := "EMP001", name := "John Smith", vacation_days := 9,
    remaining_hours := 72, annual_quota := some 20,
    vacation_used_hours := 40, sick_used_hours := 0, sick_accrued_hours := 64,
    years_of_service := some 0, sick_annual_quota_days := some 8 }

/-- A database for the end-to-end scenario of the spec: a non-manager with
`annual_quota = 10` and `remaining_hours = 56` (7 days, 24 hours used). -/
def c4DB : DBState :=
  { employees := [
      { employee_id := "EMP100", name := "Pat Doe", vacation_days := 7,
        remaining_hours := 56, annual_quota := some 10,
        vacation_used_hours := 24, sick_used_hours := 0, sick_accrued_hours := 64,
        years_of_service := some 1, sick_annual_quota_days := some 8 } ],
    leave_requests := [] }

/-- The end-to-end scenario call: 10 requested days (2024-01-10 to 2024-01-19,
outside every blackout window), submitted 21 days before the start. -/
def c4Result : AgentResult × DBState :=
  process_vacation_request c4DB "EMP100" "vacation"
    (date2024 1 10) (date2024 1 19) (date2024 1 10 - 21) false

/-- A compliant 6-day vacation request context at quota 10 (30 days notice). -/
def req6 : RequestInfo :=
  { employee_id := "EMP100", leave_type := "vacation", days_requested := 6,
    start_date := date2024 1 10, end_date := date2024 1 15,
    annual_quota_days := 10, notice_days := 30 }

/-- The same context with 7 requested days. -/
def req7 : RequestInfo :=
  { employee_id := "EMP100", leave_type := "vacation", days_requested := 7,
    start_date := date2024 1 10, end_date := date2024 1 16,
    annual_quota_days := 10, notice_days := 30 }

/-- The identifying columns of an employee row that the ledger never rewrites. -/
def empKey (e : Employee) : String × Option ℤ := (e.employee_id, e.annual_quota)

/-- `get_employee_info sampleDB "EMP001"`. -/
def sampleInfo : EmployeeInfo :=
  { employee_id := "EMP001", name := "John Smith", years_of_service := 0,
    vacation_annual_quota_days := 20, sick_annual_quota_days := 8 }

/-- `get_employee_info c4DB "EMP100"`. -/
def c4Info : EmployeeInfo :=
  { employee_id := "EMP100", name := "Pat Doe", years_of_service := 1,
    vacation_annual_quota_days := 10, sick_annual_quota_days := 8 }

/-- One recorded approved 5-day vacation, as a ledger-operation list. -/
def opsC2 : List LedgerOp :=
  [.record "EMP001" "vacation" (date2024 2 5) (date2024 2 9) 5 "approved"]

/-- The balance reported for the sample employee after `opsC2`. -/
def balC2 : Balance :=
  { remaining_days := 9, remaining_hours := 72, accrued_hours := 72,
    used_hours := 40, annual_quota_days := 20, annual_quota_hours := 160 }

/-! ### Arithmetic facts about `round2` -/

theorem bankersRound_intCast (n : ℤ) : bankersRound (n : ℚ) = n := by
  unfold bankersRound
  rw [Int.floor_intCast]
  norm_num

theorem bankersRound_nonneg {x : ℚ} (hx : 0 ≤ x) : 0 ≤ bankersRound x := by
  unfold bankersRound
  have hf : (0 : ℤ) ≤ Int.floor x := Int.floor_nonneg.mpr hx
  split_ifs <;> omega

theorem round2_nonneg {x : ℚ} (hx : 0 ≤ x) : 0 ≤ round2 x := by
  unfold round2
  have : (0 : ℤ) ≤ bankersRound (x * 100) := bankersRound_nonneg (by positivity)
  positivity

theorem round2_intCast (n : ℤ) : round2 (n : ℚ) = n := by
  unfold round2
  have h : ((n : ℚ) * 100) = ((n * 100 : ℤ) : ℚ) := by push_cast; ring
  rw [h, bankersRound_intCast]
  push_cast
  ring

theorem round2_div100 (k : ℤ) : round2 ((k : ℚ) / 100) = (k : ℚ) / 100 := by
  unfold round2
  have h : ((k : ℚ) / 100 * 100) = (k : ℚ) := by field_simp
  rw [h, bankersRound_intCast]

/-- The clamped, rounded remaining-hours expression of `get_remaining_balance`
stays within `[0, quota * 8]` whenever the quota is nonnegative. -/
theorem clampedRound_bounds (v : ℚ) (q : ℤ) (hq : 0 ≤ q) :
    0 ≤ round2 (min (round2 (max 0 v)) (round2 ((q : ℚ) * 8))) ∧
    round2 (min (round2 (max 0 v)) (round2 ((q : ℚ) * 8))) ≤ (q : ℚ) * 8 := by
  have hq8 : round2 ((q : ℚ) * 8) = (q : ℚ) * 8 := by
    rw [show ((q : ℚ) * 8) = ((q * 8 : ℤ) : ℚ) by push_cast; ring, round2_intCast]
  have hform : min (round2 (max 0 v)) (round2 ((q : ℚ) * 8)) =
      ((min (bankersRound (max 0 v * 100)) (q * 800) : ℤ) : ℚ) / 100 := by
    rw [Int.cast_min, ← min_div_div_right (by norm_num : (0:ℚ) ≤ 100)]
    congr 1
    rw [hq8]
    push_cast; ring
  have hfix : round2 (min (round2 (max 0 v)) (round2 ((q : ℚ) * 8))) =
      min (round2 (max 0 v)) (round2 ((q : ℚ) * 8)) := by
    rw [hform, round2_div100]
  constructor
  · rw [hfix]
    exact le_min (round2_nonneg (le_max_left 0 v))
      (by rw [hq8]; positivity)
  · rw [hfix, hq8]
    exact min_le_right _ _

/-! ### The ledger never rewrites `employee_id` or `annual_quota` -/

theorem update_map_empKey (s : DBState) (id lt : String) (d : ℚ) :
    (update_employee_balance s id lt d).employees.map empKey =
      s.employees.map empKey := by
  unfold update_employee_balance
  by_cases h0 : d * 8 = 0
  · simp [h0]
  · by_cases hlt : pyLower lt = "vacation" <;>
      simp only [h0, hlt, ite_true, ite_false, if_true, if_false, List.map_map] <;>
      (congr 1
       funext e
       by_cases h : e.employee_id = id <;> simp [empKey, h])

theorem record_map_empKey (s : DBState) (id lt : String) (sd ed : Date)
    (days : ℚ) (status : String) :
    (record_leave_request s id lt sd ed days status).employees.map empKey =
      s.employees.map empKey := by
  unfold record_leave_request
  split
  · rw [update_map_empKey]
  · rfl

theorem applyOps_map_empKey (s : DBState) (ops : List LedgerOp) :
    (applyOps s ops).employees.map empKey = s.employees.map empKey := by
  induction ops generalizing s with
  | nil => rfl
  | cons op rest ih =>
      cases op with
      | record id lt sd ed days status =>
          rw [applyOps, List.foldl_cons]
          rw [show List.foldl applyOp (applyOp s (.record id lt sd ed days status)) rest =
            applyOps (applyOp s (.record id lt sd ed days status)) rest from rfl]
          rw [ih, applyOp, record_map_empKey]

/-! ### Bounds on the reported balance -/

theorem get_remaining_balance_bounds (s : DBState) (employee_id leave_type : String)
    (b : Balance)
    (hq : ∀ e ∈ s.employees, 0 ≤ pyOrQuota e.annual_quota)
    (hb : get_remaining_balance s employee_id leave_type = some b) :
    0 ≤ b.remaining_hours ∧ b.remaining_hours ≤ (b.annual_quota_days : ℚ) * 8 := by
  unfold get_remaining_balance at hb
  obtain ⟨e, he, rfl⟩ := Option.map_eq_some'.mp hb
  have hmem : e ∈ s.employees := List.mem_of_find?_eq_some he
  have hqe : 0 ≤ pyOrQuota e.annual_quota := hq e hmem
  by_cases hlt : pyLower leave_type = "vacation"
  · simp only [hlt, if_pos]
    exact clampedRound_bounds _ _ hqe
  · simp only [hlt, if_neg, ite_false]
    exact clampedRound_bounds _ 8 (by norm_num)

/-! ### Unfolding `process_vacation_request` on a known employee -/

theorem process_nonmgr (s : DBState) (employee_id leave_type : String)
    (sd ed rd : Date) (im : Bool) (info : EmployeeInfo)
    (h : get_employee_info s employee_id = some info)
    (hm : (im || pyStartsWith employee_id "MGR") = false) :
    process_vacation_request s employee_id leave_type sd ed rd im =
      (.decision (build_decision s info employee_id leave_type sd ed rd), s) := by
  unfold process_vacation_request
  rw [h]
  simp [hm]

theorem process_mgr (s : DBState) (employee_id leave_type : String)
    (sd ed rd : Date) (im : Bool) (info : EmployeeInfo)
    (h : get_employee_info s employee_id = some info)
    (hm : (im || pyStartsWith employee_id "MGR") = true) :
    process_vacation_request s employee_id leave_type sd ed rd im =
      (.decision (manager_decision info leave_type sd ed (ed - sd + 1)
        ((get_remaining_balance
            (record_leave_request s employee_id leave_type sd ed
              ((ed - sd + 1 : ℤ) : ℚ) "approved")
            employee_id leave_type).getD errorBalance)),
       record_leave_request s employee_id leave_type sd ed
         ((ed - sd + 1 : ℤ) : ℚ) "approved") := by
  unfold process_vacation_request
  rw [h]
  simp [hm]

/-! ### The blackout loop -/

theorem blackoutLoop_of_lt3 (sd ed : Date) (days : ℚ) (h : days < 3) :
    ∀ l, blackoutLoop sd ed days l = none := by
  intro l
  induction l with
  | nil => rfl
  | cons b rest ih =>
      unfold blackoutLoop
      by_cases hov : sd ≤ b.bend ∧ ed ≥ b.bstart
      · rw [if_pos hov, if_pos h]
        exact ih
      · rw [if_neg hov]
        exact ih

theorem blackoutLoop_eq_find (sd ed : Date) (days : ℚ) (h : ¬ days < 3) :
    ∀ l, blackoutLoop sd ed days l =
      (l.find? (fun b => decide (sd ≤ b.bend) && decide (ed ≥ b.bstart))).map
        (fun b => Violation.blackout b.name b.bstart b.bend) := by
  intro l
  induction l with
  | nil => rfl
  | cons b rest ih =>
      unfold blackoutLoop
      by_cases hov : sd ≤ b.bend ∧ ed ≥ b.bstart
      · rw [if_pos hov, if_neg h, List.find?_cons]
        have : (decide (sd ≤ b.bend) && decide (ed ≥ b.bstart)) = true := by
          simp [hov.1, hov.2]
        rw [this]
        rfl
      · rw [if_neg hov, List.find?_cons]
        have : (decide (sd ≤ b.bend) && decide (ed ≥ b.bstart)) = false := by
          rcases not_and_or.mp hov with h1 | h1 <;> simp [h1]
        rw [this, ih]

theorem blackoutLoop_shape (sd ed : Date) (days : ℚ) (v : Violation) :
    ∀ l, blackoutLoop sd ed days l = some v →
      ∃ nm bs be, v = .blackout nm bs be := by
  intro l
  induction l with
  | nil => intro h; exact absurd h (by simp [blackoutLoop])
  | cons b rest ih =>
      intro h
      unfold blackoutLoop at h
      split at h
      · split at h
        · exact ih h
        · exact ⟨b.name, b.bstart, b.bend, (Option.some_inj.mp h).symm⟩
      · exact ih h

/-! ### The rule evaluator -/

theorem compliant_iff_no_violations (r : RequestInfo) :
    (check_policy_compliance r).compliant = true ↔
      (check_policy_compliance r).violations = [] := by
  unfold check_policy_compliance
  dsimp only
  split_ifs <;> simp

theorem frequency_not_in_policy (r : RequestInfo) (n l : ℕ) :
    Violation.frequency n l ∉ (check_policy_compliance r).violations ∧
    Violation.frequency n l ∉ (check_policy_compliance r).warnings := by
  unfold check_policy_compliance
  dsimp only
  split_ifs <;> simp

/-! ### Violations shown in a decision come from the aggregated list -/

theorem gar_violations_subset (employee_info : EmployeeInfo) (balance_info : Balance)
    (sufficient : Bool) (days_requested : ℤ) (start_date end_date : Date)
    (leave_type : String) (violations : List Violation) (approved : Bool)
    (analysis_checks : List AnalysisCheck)
    (blackout_violation frequency_violation : Option Violation) (v : Violation)
    (hv : v ∈ (generate_approval_response employee_info balance_info sufficient
      days_requested start_date end_date leave_type violations approved
      analysis_checks blackout_violation frequency_violation).violations) :
    v ∈ violations := by
  unfold generate_approval_response at hv
  by_cases ha : approved = true
  · simp only [ha, ite_true, if_true] at hv
    exact (List.mem_filter.mp hv).1
  · have ha' : approved = false := by revert ha; cases approved <;> simp
    simp only [ha', ite_false, if_false] at hv
    exact hv

/-! ### Evaluation bridges for the concrete string constants -/

theorem pyLower_vacation : pyLower "vacation" = "vacation" := by decide

theorem pyLower_sick_ne : ¬ pyLower "sick" = "vacation" := by decide

theorem pyStartsWith_sample : pyStartsWith "EMP001" "MGR" = false := by decide

theorem pyStartsWith_c4 : pyStartsWith "EMP100" "MGR" = false := by decide

/-! ### C1 -/

/-- C1 counterexample: recording an approved compensating request of `-1` days
for the sample employee (used hours 0, quota 20) drives `vacation_used_hours`
to `-8`, which lies outside `[0, quota_hours]`: the used-hours column is not
clamped symmetrically with the remaining balance. -/
theorem C1_counterexample :
    (record_leave_request sampleDB "EMP001" "vacation" (date2024 2 1) (date2024 2 1)
        (-1) "approved").employees.map Employee.vacation_used_hours = [-8] ∧
    ¬ (0 : ℚ) ≤ -8 := by
  constructor
  · norm_num [record_leave_request, update_employee_balance, sampleDB, pyLower_vacation]
  · norm_num

/-- C1 amended: for a nonzero delta, the vacation update clamps
`vacation_days` to `[0, COALESCE(annual_quota, 20)]` and `remaining_hours`
to `[0, COALESCE(annual_quota, 20) * 8]`, but `vacation_used_hours` (and
`sick_used_hours` on the sick path) receive an unclamped `+ delta * 8`, so
the used-hours columns can leave `[0, quota_hours]`. -/
theorem C1_amended_clamping :
    (∀ (s : DBState) (employee_id : String) (delta : ℚ), delta ≠ 0 →
      ∀ e' ∈ (update_employee_balance s employee_id "vacation" delta).employees,
        e'.employee_id = employee_id →
        (0 ≤ e'.annual_quota.getD 20 →
          0 ≤ e'.vacation_days ∧ e'.vacation_days ≤ ((e'.annual_quota.getD 20 : ℤ) : ℚ) ∧
          0 ≤ e'.remaining_hours ∧
          e'.remaining_hours ≤ ((e'.annual_quota.getD 20 : ℤ) : ℚ) * 8) ∧
        ∃ e ∈ s.employees, e.employee_id = employee_id ∧
          e'.vacation_used_hours = e.vacation_used_hours + delta * 8) ∧
    (∀ (s : DBState) (employee_id : String) (delta : ℚ), delta ≠ 0 →
      ∀ e' ∈ (update_employee_balance s employee_id "sick" delta).employees,
        e'.employee_id = employee_id →
        ∃ e ∈ s.employees, e.employee_id = employee_id ∧
          e'.sick_used_hours = e.sick_used_hours + delta * 8) := by
  have h80 : ∀ delta : ℚ, delta ≠ 0 → ¬ delta * 8 = 0 := by
    intro delta hd h
    rcases mul_eq_zero.mp h with h | h
    · exact hd h
    · norm_num at h
  constructor
  · intro s employee_id delta hd e' he' hid
    unfold update_employee_balance at he'
    dsimp only at he'
    rw [if_neg (h80 delta hd), if_pos pyLower_vacation] at he'
    dsimp only at he'
    obtain ⟨e, he, rfl⟩ := List.mem_map.mp he'
    by_cases hcase : e.employee_id = employee_id
    · rw [if_pos hcase]
      dsimp only
      refine ⟨fun hq => ?_, ⟨e, he, hcase, rfl⟩⟩
      have hq' : (0 : ℚ) ≤ ((e.annual_quota.getD 20 : ℤ) : ℚ) := by exact_mod_cast hq
      refine ⟨?_, ?_, ?_, ?_⟩ <;> (split_ifs <;> push_neg at * <;> linarith)
    · rw [if_neg hcase] at hid
      exact absurd hid hcase
  · intro s employee_id delta hd e' he' hid
    unfold update_employee_balance at he'
    dsimp only at he'
    rw [if_neg (h80 delta hd), if_neg pyLower_sick_ne] at he'
    dsimp only at he'
    obtain ⟨e, he, rfl⟩ := List.mem_map.mp he'
    by_cases hcase : e.employee_id = employee_id
    · rw [if_pos hcase]
      exact ⟨e, he, hcase, rfl⟩
    · rw [if_neg hcase] at hid
      exact absurd hid hcase

/-- C1 witness: the amended clamping theorem applied to a concrete 5-day
deduction on the sample employee. -/
theorem C1_witness :
    ((0 ≤ sampleEmpAfter5.annual_quota.getD 20 →
        0 ≤ sampleEmpAfter5.vacation_days ∧
        sampleEmpAfter5.vacation_days ≤ ((sampleEmpAfter5.annual_quota.getD 20 : ℤ) : ℚ) ∧
        0 ≤ sampleEmpAfter5.remaining_hours ∧
        sampleEmpAfter5.remaining_hours ≤ ((sampleEmpAfter5.annual_quota.getD 20 : ℤ) : ℚ) * 8) ∧
      ∃ e ∈ sampleDB.employees, e.employee_id = "EMP001" ∧
        sampleEmpAfter5.vacation_used_hours = e.vacation_used_hours + 5 * 8) :=
  C1_amended_clamping.1 sampleDB "EMP001" 5 (by norm_num) sampleEmpAfter5
    (by norm_num [update_employee_balance, sampleDB, pyLower_vacation, sampleEmpAfter5])
    (by rfl)

/-! ### C2 -/

/-- C2: for any database whose employees carry nonnegative effective vacation
quotas, after any sequence of ledger operations the balance reported by
`get_remaining_balance` satisfies
`0 ≤ remaining_hours ≤ annual_quota_days * 8` (balance reads are pure, so only
the recording operations can change state). -/
theorem C2_remaining_bounds (s : DBState) (ops : List LedgerOp)
    (employee_id leave_type : String) (b : Balance)
    (hq : ∀ e ∈ s.employees, 0 ≤ pyOrQuota e.annual_quota)
    (hb : get_remaining_balance (applyOps s ops) employee_id leave_type = some b) :
    0 ≤ b.remaining_hours ∧ b.remaining_hours ≤ (b.annual_quota_days : ℚ) * 8 := by
  refine get_remaining_balance_bounds (applyOps s ops) employee_id leave_type b ?_ hb
  intro e' he'
  have hmap := applyOps_map_empKey s ops
  have : empKey e' ∈ (applyOps s ops).employees.map empKey := List.mem_map_of_mem _ he'
  rw [hmap] at this
  obtain ⟨e, he, hkey⟩ := List.mem_map.mp this
  have : e.annual_quota = e'.annual_quota := congrArg Prod.snd hkey
  rw [← this]
  exact hq e he

/-- C2 witness: the bounds at the sample database after recording an approved
5-day vacation. -/
theorem C2_witness :
    0 ≤ balC2.remaining_hours ∧
    balC2.remaining_hours ≤ (balC2.annual_quota_days : ℚ) * 8 :=
  C2_remaining_bounds sampleDB opsC2 "EMP001" "vacation" balC2
    (by decide)
    (by norm_num [applyOps, applyOp, opsC2, record_leave_request,
      update_employee_balance, get_remaining_balance, findEmployee, sampleDB,
      pyLower_vacation, pyOrQuota, round2, bankersRound, balC2])

/-! ### C3 -/

/-- C3 counterexample: a request whose end date (2024-03-05) precedes its
start date (2024-03-10), i.e. `days_requested = -4 ≤ 0`, is not rejected as
an error: the full evaluation runs and returns a normal decision with status
`"pending"` and a computed eligibility verdict (`can_be_approved = some true`),
so no InvalidRange rejection exists. -/
theorem C3_counterexample :
    statusOf (process_vacation_request sampleDB "EMP001" "vacation"
        (date2024 3 10) (date2024 3 5) (date2024 3 1) false).1 = "pending" ∧
    (decisionOf (process_vacation_request sampleDB "EMP001" "vacation"
        (date2024 3 10) (date2024 3 5) (date2024 3 1) false).1).can_be_approved =
      some true ∧
    (date2024 3 5 : ℤ) < date2024 3 10 := by
  refine ⟨?_, ?_, by decide⟩
  · norm_num [process_vacation_request, sampleDB, get_employee_info, findEmployee,
      pyStartsWith_sample, build_decision, statusOf, decisionOf]
  · norm_num [process_vacation_request, sampleDB, get_employee_info, findEmployee,
      pyStartsWith_sample, build_decision, statusOf, decisionOf, check_balance_sufficient,
      get_remaining_balance, pyLower_vacation, pyOrQuota, round2, bankersRound,
      check_policy_compliance, check_blackout_periods, get_blackout_periods, blackoutLoop,
      check_frequency_limits, get_long_vacations, date2024]

/-- C3 amended: there is no InvalidRange rejection.  A request on a known
non-manager employee whose end date precedes its start date flows through the
normal evaluation pipeline: the call leaves the ledger unchanged and returns a
normal decision with status `"pending"` carrying an eligibility verdict, not
an error. -/
theorem C3_amended (s : DBState) (employee_id leave_type : String)
    (start_date end_date request_date : Date) (info : EmployeeInfo)
    (h : get_employee_info s employee_id = some info)
    (hm : pyStartsWith employee_id "MGR" = false)
    (hrange : end_date < start_date) :
    (process_vacation_request s employee_id leave_type start_date end_date
      request_date false).2 = s ∧
    statusOf (process_vacation_request s employee_id leave_type start_date end_date
      request_date false).1 = "pending" ∧
    (decisionOf (process_vacation_request s employee_id leave_type start_date
      end_date request_date false).1).can_be_approved.isSome = true := by
  have hm' : (false || pyStartsWith employee_id "MGR") = false := by simp [hm]
  rw [process_nonmgr s employee_id leave_type start_date end_date request_date
    false info h hm']
  exact ⟨rfl, rfl, rfl⟩

/-- C3 witness: the amended theorem at the concrete inverted range of the
counterexample. -/
theorem C3_witness :
    (process_vacation_request sampleDB "EMP001" "vacation"
      (date2024 3 10) (date2024 3 5) (date2024 3 1) false).2 = sampleDB ∧
    statusOf (process_vacation_request sampleDB "EMP001" "vacation"
      (date2024 3 10) (date2024 3 5) (date2024 3 1) false).1 = "pending" ∧
    (decisionOf (process_vacation_request sampleDB "EMP001" "vacation"
      (date2024 3 10) (date2024 3 5) (date2024 3 1) false).1).can_be_approved.isSome =
      true :=
  C3_amended sampleDB "EMP001" "vacation" (date2024 3 10) (date2024 3 5)
    (date2024 3 1) sampleInfo (by decide) (by decide) (by decide)

/-! ### C4 -/

/-- C4: the end-to-end scenario (quota 10, 56 remaining hours, 10 requested
days, 21 days notice, non-manager).  The returned decision carries both the
insufficient-balance failure (the balance check computes `false` and the
analysis list shows `Balance Check: FAIL`) and the blocking 60%-rule violation
with maximum 6, neither check short-circuiting the other, and its options
include the recommended reduce-to-available-balance option at 7 days and a
deny option; the call itself leaves the ledger unchanged and stays pending. -/
theorem C4_scenario :
    c4Result.2 = c4DB ∧
    statusOf c4Result.1 = "pending" ∧
    (decisionOf c4Result.1).can_be_approved = some false ∧
    (check_balance_sufficient c4DB "EMP100" 10 "vacation").1 = false ∧
    Violation.sixtyPercentRule 10 6 ∈ (decisionOf c4Result.1).violations ∧
    AnalysisCheck.mk "Balance Check" "FAIL" ∈ (decisionOf c4Result.1).analysis_checks ∧
    (∃ o ∈ (decisionOf c4Result.1).options,
      o.otype = "reduce" ∧ o.desc = Desc.useAvailableBalance 7 ∧ o.recommended = true) ∧
    (∃ o ∈ (decisionOf c4Result.1).options, o.otype = "deny") := by
  norm_num [c4Result, process_vacation_request, c4DB, get_employee_info, findEmployee,
    pyStartsWith_c4, build_decision, statusOf, decisionOf, check_balance_sufficient,
    get_remaining_balance, pyLower_vacation, pyOrQuota, round2, bankersRound,
    check_policy_compliance, check_blackout_periods, get_blackout_periods, blackoutLoop,
    check_frequency_limits, get_long_vacations, date2024, generate_approval_response,
    generate_analysis_checks, approval_options, dedupOptions, dedupGo, suggest_alternatives,
    Desc.hasShiftOrReduce, Violation.isWarning, nextLetter, weekday, errorBalance]
  decide

/-! ### C5 -/

/-- C5: for every non-manager request on a known employee, the eligibility
verdict is exactly the conjunction of the balance check, the rule-evaluator
compliance flag, the absence of a blackout violation and the absence of a
(gated) frequency violation; and the compliance flag is true exactly when the
rule evaluator produced no blocking violations, so warnings never affect it. -/
theorem C5_eligibility :
    (∀ (s : DBState) (employee_id leave_type : String)
      (start_date end_date request_date : Date) (info : EmployeeInfo),
      get_employee_info s employee_id = some info →
      pyStartsWith employee_id "MGR" = false →
      (decisionOf (process_vacation_request s employee_id leave_type start_date
        end_date request_date false).1).can_be_approved =
        some ((check_balance_sufficient s employee_id
            ((end_date - start_date + 1 : ℤ) : ℚ) leave_type).1 &&
          (check_policy_compliance
            { employee_id := employee_id, leave_type := leave_type,
              days_requested := end_date - start_date + 1,
              start_date := start_date, end_date := end_date,
              annual_quota_days :=
                if leave_type = "vacation" then info.vacation_annual_quota_days
                else info.sick_annual_quota_days,
              notice_days := start_date - request_date }).compliant &&
          (check_blackout_periods start_date end_date
            ((end_date - start_date + 1 : ℤ) : ℚ)).isNone &&
          (if leave_type = "vacation" && decide ((end_date - start_date + 1 : ℤ) > 7)
            then check_frequency_limits s employee_id start_date end_date
            else none).isNone)) ∧
    (∀ r : RequestInfo,
      (check_policy_compliance r).compliant = true ↔
        (check_policy_compliance r).violations = []) := by
  constructor
  · intro s employee_id leave_type start_date end_date request_date info h hm
    have hm' : (false || pyStartsWith employee_id "MGR") = false := by simp [hm]
    rw [process_nonmgr s employee_id leave_type start_date end_date request_date
      false info h hm']
    rfl
  · exact compliant_iff_no_violations

/-- C5 witness: the eligibility formula instantiated at the end-to-end
scenario database and request. -/
theorem C5_witness :
    (decisionOf (process_vacation_request c4DB "EMP100" "vacation" (date2024 1 10)
      (date2024 1 19) (date2024 1 10 - 21) false).1).can_be_approved =
      some ((check_balance_sufficient c4DB "EMP100"
          ((date2024 1 19 - date2024 1 10 + 1 : ℤ) : ℚ) "vacation").1 &&
        (check_policy_compliance
          { employee_id := "EMP100", leave_type := "vacation",
            days_requested := date2024 1 19 - date2024 1 10 + 1,
            start_date := date2024 1 10, end_date := date2024 1 19,
            annual_quota_days :=
              if "vacation" = "vacation" then c4Info.vacation_annual_quota_days
              else c4Info.sick_annual_quota_days,
            notice_days := date2024 1 10 - (date2024 1 10 - 21) }).compliant &&
        (check_blackout_periods (date2024 1 10) (date2024 1 19)
          ((date2024 1 19 - date2024 1 10 + 1 : ℤ) : ℚ)).isNone &&
        (if "vacation" = "vacation" && decide ((date2024 1 19 - date2024 1 10 + 1 : ℤ) > 7)
          then check_frequency_limits c4DB "EMP100" (date2024 1 10) (date2024 1 19)
          else none).isNone) :=
  C5_eligibility.1 c4DB "EMP100" "vacation" (date2024 1 10) (date2024 1 19)
    (date2024 1 10 - 21) c4Info (by decide) (by decide)

/-! ### C6 -/

/-- C6: on a known employee, the non-manager path returns a decision with
status `"pending"` and leaves the database unchanged, while the manager
fast-path (explicit flag or `MGR` id prefix) commits the request as approved —
recording it and debiting the balance — with no hypothesis about any rule or
balance check. -/
theorem C6_frame (s : DBState) (employee_id leave_type : String)
    (start_date end_date request_date : Date) (is_manager : Bool)
    (info : EmployeeInfo)
    (h : get_employee_info s employee_id = some info) :
    ((is_manager || pyStartsWith employee_id "MGR") = false →
      (process_vacation_request s employee_id leave_type start_date end_date
        request_date is_manager).2 = s ∧
      statusOf (process_vacation_request s employee_id leave_type start_date
        end_date request_date is_manager).1 = "pending") ∧
    ((is_manager || pyStartsWith employee_id "MGR") = true →
      (process_vacation_request s employee_id leave_type start_date end_date
        request_date is_manager).2 =
        record_leave_request s employee_id leave_type start_date end_date
          ((end_date - start_date + 1 : ℤ) : ℚ) "approved" ∧
      statusOf (process_vacation_request s employee_id leave_type start_date
        end_date request_date is_manager).1 = "approved" ∧
      (decisionOf (process_vacation_request s employee_id leave_type start_date
        end_date request_date is_manager).1).is_manager_approval = true) := by
  constructor
  · intro hm
    rw [process_nonmgr s employee_id leave_type start_date end_date request_date
      is_manager info h hm]
    exact ⟨rfl, rfl⟩
  · intro hm
    rw [process_mgr s employee_id leave_type start_date end_date request_date
      is_manager info h hm]
    exact ⟨rfl, rfl, rfl⟩

/-- C6 witness: both branches at the sample database — a plain employee id
with the flag unset stays pending without touching the state, and the same id
with the manager flag set commits the recorded request. -/
theorem C6_witness :
    ((process_vacation_request sampleDB "EMP001" "vacation" (date2024 2 5)
        (date2024 2 9) (date2024 2 1) false).2 = sampleDB ∧
      statusOf (process_vacation_request sampleDB "EMP001" "vacation" (date2024 2 5)
        (date2024 2 9) (date2024 2 1) false).1 = "pending") ∧
    ((process_vacation_request sampleDB "EMP001" "vacation" (date2024 2 5)
        (date2024 2 9) (date2024 2 1) true).2 =
        record_leave_request sampleDB "EMP001" "vacation" (date2024 2 5)
          (date2024 2 9) ((date2024 2 9 - date2024 2 5 + 1 : ℤ) : ℚ) "approved" ∧
      statusOf (process_vacation_request sampleDB "EMP001" "vacation" (date2024 2 5)
        (date2024 2 9) (date2024 2 1) true).1 = "approved" ∧
      (decisionOf (process_vacation_request sampleDB "EMP001" "vacation" (date2024 2 5)
        (date2024 2 9) (date2024 2 1) true).1).is_manager_approval = true) :=
  ⟨(C6_frame sampleDB "EMP001" "vacation" (date2024 2 5) (date2024 2 9)
      (date2024 2 1) false sampleInfo (by decide)).1 (by decide),
   (C6_frame sampleDB "EMP001" "vacation" (date2024 2 5) (date2024 2 9)
      (date2024 2 1) true sampleInfo (by decide)).2 (by decide)⟩

/-! ### C7 -/

/-- C7: the 60% rule fires exactly when `days_requested` exceeds
`annual_quota_days * 0.6`, producing the blocking violation that carries the
computed maximum; it never applies when the lowered leave type is not
`"vacation"`; and for quota 10 a 6-day request stays compliant while a 7-day
request yields the blocking violation with maximum 6. -/
theorem C7_quota_rule :
    (∀ r : RequestInfo, pyLower r.leave_type = "vacation" →
      (((r.days_requested : ℚ) > (r.annual_quota_days : ℚ) * 0.6) ↔
        Violation.sixtyPercentRule r.days_requested ((r.annual_quota_days : ℚ) * 0.6) ∈
          (check_policy_compliance r).violations)) ∧
    (∀ r : RequestInfo, ¬ pyLower r.leave_type = "vacation" →
      ∀ (n : ℤ) (m : ℚ),
        Violation.sixtyPercentRule n m ∉ (check_policy_compliance r).violations) ∧
    (∀ (n : ℤ) (m : ℚ), (Violation.sixtyPercentRule n m).isWarning = false) ∧
    (check_policy_compliance req6).compliant = true ∧
    (check_policy_compliance req7).compliant = false ∧
    Violation.sixtyPercentRule 7 6 ∈ (check_policy_compliance req7).violations := by
  refine ⟨?_, ?_, fun n m => rfl, ?_, ?_, ?_⟩
  · intro r hlt
    unfold check_policy_compliance
    dsimp only
    rw [if_pos hlt]
    constructor
    · intro hgt
      rw [if_pos hgt]
      simp
    · intro hmem
      by_contra hgt
      rw [if_neg hgt] at hmem
      simp only [List.nil_append] at hmem
      split_ifs at hmem <;> simp at hmem
  · intro r hlt n m
    unfold check_policy_compliance
    dsimp only
    rw [if_neg hlt]
    simp only [List.nil_append]
    split_ifs <;> simp
  · norm_num [check_policy_compliance, req6, pyLower_vacation]
  · norm_num [check_policy_compliance, req7, pyLower_vacation]
  · norm_num [check_policy_compliance, req7, pyLower_vacation]

/-- C7 witness: the boundary instance of the rule, derived from the general
equivalence at the 7-day request. -/
theorem C7_witness :
    Violation.sixtyPercentRule req7.days_requested ((req7.annual_quota_days : ℚ) * 0.6) ∈
      (check_policy_compliance req7).violations :=
  (C7_quota_rule.1 req7 (by decide)).mp (by norm_num [req7])

/-! ### C8 -/

/-- C8: a request shorter than 3 days is never blocked by a blackout period,
whatever it overlaps; for 3 or more days a violation is produced exactly when
the request interval overlaps some blackout interval
(`start_date ≤ b_end` and `end_date ≥ b_start`); any produced blackout
violation is blocking (never a warning); and at the Q1 blackout the concrete
3-day request 2024-03-20..22 is blocked while the 2-day variant passes. -/
theorem C8_blackout_rule :
    (∀ (start_date end_date : Date) (days_requested : ℚ), days_requested < 3 →
      check_blackout_periods start_date end_date days_requested = none) ∧
    (∀ (start_date end_date : Date) (days_requested : ℚ), 3 ≤ days_requested →
      ((check_blackout_periods start_date end_date days_requested).isSome = true ↔
        ∃ b ∈ get_blackout_periods, start_date ≤ b.bend ∧ end_date ≥ b.bstart)) ∧
    (∀ (start_date end_date : Date) (days_requested : ℚ) (v : Violation),
      check_blackout_periods start_date end_date days_requested = some v →
      v.isWarning = false) ∧
    check_blackout_periods (date2024 3 20) (date2024 3 22) 3 =
      some (.blackout "Q1 End" (date2024 3 18) (date2024 3 31)) ∧
    check_blackout_periods (date2024 3 20) (date2024 3 22) 2 = none := by
  refine ⟨?_, ?_, ?_, ?_, ?_⟩
  · intro sd ed days h
    exact blackoutLoop_of_lt3 sd ed days h _
  · intro sd ed days h
    unfold check_blackout_periods
    rw [blackoutLoop_eq_find sd ed days (not_lt.mpr h)]
    simp [List.find?_isSome]
  · intro sd ed days v hv
    obtain ⟨nm, bs, be, rfl⟩ := blackoutLoop_shape sd ed days v _ hv
    rfl
  · norm_num [check_blackout_periods, blackoutLoop, get_blackout_periods, date2024]
  · norm_num [check_blackout_periods, blackoutLoop, get_blackout_periods, date2024]

/-- C8 witness: the exemption branch applied to a 2-day request inside the Q2
blackout window. -/
theorem C8_witness :
    check_blackout_periods (date2024 6 20) (date2024 6 21) 2 = none :=
  C8_blackout_rule.1 (date2024 6 20) (date2024 6 21) 2 (by norm_num)

/-! ### C9 -/

/-- Helper for C9: a decision built for a request of at most 7 days never
shows a frequency violation (the frequency check is gated on
`days_requested > 7`, and no other check produces that violation shape). -/
theorem build_decision_no_frequency (s : DBState) (info : EmployeeInfo)
    (employee_id leave_type : String) (start_date end_date request_date : Date)
    (hdays : end_date - start_date + 1 ≤ 7) (n l : ℕ) :
    Violation.frequency n l ∉
      (build_decision s info employee_id leave_type start_date end_date
        request_date).violations := by
  intro hv
  simp only [build_decision] at hv
  have hv' := gar_violations_subset _ _ _ _ _ _ _ _ _ _ _ _ _ hv
  have hgate : (decide ((end_date - start_date + 1 : ℤ) > 7)) = false :=
    decide_eq_false (not_lt.mpr hdays)
  rcases List.mem_append.mp hv' with hrest | h
  · rcases List.mem_append.mp hrest with hrest2 | h
    · rcases List.mem_append.mp hrest2 with h | h
      · exact (frequency_not_in_policy _ n l).1 h
      · exact (frequency_not_in_policy _ n l).2 h
    · rw [Option.mem_toList, Option.mem_def] at h
      unfold check_blackout_periods at h
      obtain ⟨nm, bs, be, heq⟩ := blackoutLoop_shape _ _ _ _ _ h
      exact absurd heq (by simp)
  · simp only [hgate, Bool.and_false] at h
    rw [if_neg (by simp)] at h
    simp at h

/-- C9: the frequency check returns a blocking violation carrying the count of
the employee's approved long vacations (vacation, more than 7 days, approved)
that overlap the window `[start - 60, end + 60]` exactly when that count is at
least 2, with limit 2, and returns nothing otherwise; and a non-manager
request of at most 7 days never yields a frequency violation in its decision,
whatever the history. -/
theorem C9_frequency_rule :
    (∀ (s : DBState) (employee_id : String) (start_date end_date : Date),
      check_frequency_limits s employee_id start_date end_date =
        if 2 ≤ (s.leave_requests.filter (fun r =>
            decide (r.start_date ≤ end_date + 60 ∧ r.end_date ≥ start_date - 60) &&
            decide (r.employee_id = employee_id ∧ r.leave_type = "vacation" ∧
              r.days_requested > 7 ∧ r.status = "approved"))).length
        then some (.frequency ((s.leave_requests.filter (fun r =>
            decide (r.start_date ≤ end_date + 60 ∧ r.end_date ≥ start_date - 60) &&
            decide (r.employee_id = employee_id ∧ r.leave_type = "vacation" ∧
              r.days_requested > 7 ∧ r.status = "approved"))).length) 2)
        else none) ∧
    (∀ (s : DBState) (employee_id leave_type : String)
      (start_date end_date request_date : Date) (info : EmployeeInfo),
      get_employee_info s employee_id = some info →
      pyStartsWith employee_id "MGR" = false →
      end_date - start_date + 1 ≤ 7 →
      ∀ (n l : ℕ), Violation.frequency n l ∉
        (decisionOf (process_vacation_request s employee_id leave_type start_date
          end_date request_date false).1).violations) := by
  constructor
  · intro s employee_id start_date end_date
    unfold check_frequency_limits get_long_vacations
    dsimp only
    rw [List.filter_filter]
  · intro s employee_id leave_type start_date end_date request_date info h hm hdays n l
    have hm' : (false || pyStartsWith employee_id "MGR") = false := by simp [hm]
    rw [process_nonmgr s employee_id leave_type start_date end_date request_date
      false info h hm']
    exact build_decision_no_frequency s info employee_id leave_type start_date
      end_date request_date hdays n l

/-- C9 witness: a concrete 3-day request never acquires a frequency violation. -/
theorem C9_witness :
    Violation.frequency 2 2 ∉
      (decisionOf (process_vacation_request sampleDB "EMP001" "vacation"
        (date2024 2 5) (date2024 2 7) (date2024 1 5) false).1).violations :=
  C9_frequency_rule.2 sampleDB "EMP001" "vacation" (date2024 2 5) (date2024 2 7)
    (date2024 1 5) sampleInfo (by decide) (by decide) (by decide) 2 2

/-! ### C10 -/

/-- C10: for a request of at least 3 days, the blackout check returns exactly
the violation of the first period in the fixed calendar order
(Q1 End, Q2 End, Q3 End, Year-End) whose interval overlaps the request — later
overlapping periods are not reported; concretely, the request
2024-03-20..2024-06-20 overlaps both Q1 End and Q2 End yet reports only the
Q1 End violation. -/
theorem C10_first_blackout :
    (∀ (start_date end_date : Date) (days_requested : ℚ), 3 ≤ days_requested →
      check_blackout_periods start_date end_date days_requested =
        (get_blackout_periods.find? (fun b =>
            decide (start_date ≤ b.bend) && decide (end_date ≥ b.bstart))).map
          (fun b => Violation.blackout b.name b.bstart b.bend)) ∧
    check_blackout_periods (date2024 3 20) (date2024 6 20) 93 =
      some (.blackout "Q1 End" (date2024 3 18) (date2024 3 31)) ∧
    ((date2024 3 20 : ℤ) ≤ date2024 6 30 ∧ (date2024 6 20 : ℤ) ≥ date2024 6 17) := by
  refine ⟨?_, ?_, by decide⟩
  · intro sd ed days h
    exact blackoutLoop_eq_find sd ed days (not_lt.mpr h) _
  · norm_num [check_blackout_periods, blackoutLoop, get_blackout_periods, date2024]

/-- C10 witness: the first-overlap characterisation at a January request that
meets no blackout window. -/
theorem C10_witness :
    check_blackout_periods (date2024 1 8) (date2024 1 12) 5 =
      (get_blackout_periods.find? (fun b =>
          decide ((date2024 1 8 : ℤ) ≤ b.bend) && decide ((date2024 1 12 : ℤ) ≥ b.bstart))).map
        (fun b => Violation.blackout b.name b.bstart b.bend) :=
  C10_first_blackout.1 (date2024 1 8) (date2024 1 12) 5 (by norm_num)
